import Mathlib

/-!
Verification of the authentication, session-lifecycle and role-authorization
core of the jinice directory service (`src/server/handlers.go`), in a shallow
embedding. Machinery outside the auth core (CRUD handlers, static files,
observability counters) is not modelled. Conventions of the embedding:

* Time is a `Nat` of unix seconds, passed explicitly; the several `time.Now()`
  calls inside one handler execution are modelled as the same instant.
* A JWT is modelled symbolically as its claims together with the algorithm in
  its header and the key it was signed with; serialization of tokens to strings
  is assumed injective, so the session table stores `Token` values directly and
  the `WHERE token = ?` lookups compare `Token`s.
* The SQL store is a `DB` record of lists; `db.Exec` insert/delete failures are
  modelled by boolean fault flags, and `jwt.SignedString` failure by a `signFails`
  argument.
* `bcrypt` is abstracted: handlers take the hash / compare functions as
  parameters, since the claims under study never depend on their internals.
-/

namespace Jinice

/-- A user row of the `users` table (`type` is the role string). -/
structure User where
  id : Nat
  name : String
  email : String
  password : String
  type : String
  deriving Repr, DecidableEq

/-- The JWT claims map built by `generateToken`
(`{"user_id": ..., "email": ..., "type": ..., "exp": ...}`). -/
structure Claims where
  user_id : Nat
  email : String
  type : String
  exp : Nat
  deriving Repr, DecidableEq

/-- The algorithm named in a token header. `generateToken` always uses HS256;
an attacker-supplied token may claim `none` or RS256. -/
inductive Alg where
  | HS256
  | noAlg
  | RS256
  deriving Repr, DecidableEq

/-- A symbolic JWT: its claims, the header algorithm, and the key that
produced its signature. -/
structure Token where
  claims : Claims
  alg : Alg
  key : Nat
  deriving Repr, DecidableEq

/-- A row of the `sessions` table. -/
structure Session where
  user_id : Nat
  token : Token
  expires_at : Nat
  deriving Repr, DecidableEq

/-- The database state visible to the auth core, plus fault flags modelling
`db.Exec` errors. -/
structure DB where
  users : List User
  sessions : List Session
  business_owners : List (Nat × String × String)
  event_owners : List (Nat × String × String)
  nextUserId : Nat
  insertFails : Bool
  deleteFails : Bool
  deriving Repr, DecidableEq

/-- `generateToken` (handlers.go:54-76): builds the claims with
`exp = now + 24h`, signs with the process secret, then inserts a session row
with the same expiry; returns the token string only when both steps succeed. -/
def generateToken (signFails : Bool) (db : DB) (secret : Nat) (user : User)
    (now : Nat) : Except String (Token × DB) :=
  let claims : Claims := ⟨user.id, user.email, user.type, now + 24 * 3600⟩
  if signFails then
    .error "signing error"
  else
    let tok : Token := ⟨claims, .HS256, secret⟩
    let expiresAt := now + 24 * 3600
    if db.insertFails then
      .error "error storing session"
    else
      .ok (tok, { db with sessions := db.sessions ++ [⟨user.id, tok, expiresAt⟩] })

/-- The `Authorization` header of a request: absent, present without the
`Bearer ` prefix, or carrying a bearer token. -/
inductive AuthHeader where
  | missing
  | malformed (s : String)
  | bearer (t : Token)
  deriving Repr, DecidableEq

/-- Outcome of `authenticateToken`: either the verified claims or an error. -/
inductive AuthResult where
  | ok (claims : Claims)
  | err (msg : String)
  deriving Repr, DecidableEq

/-- `authenticateToken` (handlers.go:79-117), instrumented: the second
component records whether signature verification (`jwt.Parse`) was reached.
Order of checks, as in the source: header shape, then the session-row lookup
`WHERE token = ? AND expires_at > NOW()`, then `jwt.Parse` (algorithm must be
HMAC, signature key must match the process secret, `exp` claim must be in the
future). The scanned row values are not used beyond existence. -/
def authenticateTokenT (db : DB) (secret : Nat) (now : Nat) (h : AuthHeader) :
    AuthResult × Bool :=
  match h with
  | .missing => (.err "authorization header required", false)
  | .malformed _ => (.err "authorization header required", false)
  | .bearer t =>
    match db.sessions.find? (fun s => s.token == t && decide (now < s.expires_at)) with
    | none => (.err "invalid or expired token", false)
    | some _ =>
      if t.alg ≠ Alg.HS256 then (.err "unexpected signing method", true)
      else if t.key ≠ secret then (.err "signature is invalid", true)
      else if t.claims.exp ≤ now then (.err "token is expired", true)
      else (.ok t.claims, true)

/-- `authenticateToken`, result only. -/
def authenticateToken (db : DB) (secret : Nat) (now : Nat) (h : AuthHeader) :
    AuthResult :=
  (authenticateTokenT db secret now h).1

/-- An HTTP request, reduced to what the auth core inspects: the method, the
`Authorization` header, and the remaining header map. -/
structure Request where
  method : String
  auth : AuthHeader
  headers : List (String × String)
  deriving Repr, DecidableEq

/-- `http.Header.Set`: replaces any existing values for the key. -/
def headerSet (hs : List (String × String)) (k v : String) :
    List (String × String) :=
  (k, v) :: hs.filter (fun p => p.1 ≠ k)

/-- `http.Header.Get`: first value for the key, `""` when absent. -/
def headerGet (hs : List (String × String)) (k : String) : String :=
  match hs.find? (fun p => p.1 == k) with
  | some p => p.2
  | none => ""

/-- A response body, at the granularity the modelled handlers produce. -/
inductive Body where
  | empty
  | err (msg : String)
  | msg (m : String)
  | loginOk (user : User) (token : Token)
  | registerOk (user : User) (token : Token)
  deriving Repr, DecidableEq

/-- An HTTP response: status code and body. -/
structure Response where
  status : Nat
  body : Body
  deriving Repr, DecidableEq

/-- A handler: consumes a request and the database, yields a response and the
database after the handler's writes. -/
def Handler : Type := Request → DB → Response × DB

/-- The two `r.Header.Set` calls of `authMiddleware` (handlers.go:130-131):
overwrite `X-User-ID` and `X-User-Type` with the verified claims. -/
def injectIdentity (r : Request) (c : Claims) : Request :=
  let hs0 := headerSet r.headers "X-User-ID" (toString c.user_id)
  { r with headers := headerSet hs0 "X-User-Type" c.type }

/-- `authMiddleware` (handlers.go:120-135): authenticate; on failure respond
401 `{"error": "unauthorized"}`; on success overwrite the `X-User-ID` and
`X-User-Type` headers with the verified claims and invoke the wrapped
handler. -/
def authMiddleware (next : Handler) (secret now : Nat) : Handler :=
  fun r db =>
    match authenticateToken db secret now r.auth with
    | .err _ => (⟨401, .err "unauthorized"⟩, db)
    | .ok claims => next (injectIdentity r claims) db

/-- `businessOwnerOnly` (handlers.go:138-148): `authMiddleware`, then 403
unless the injected `X-User-Type` is `business_owner`. -/
def businessOwnerOnly (next : Handler) (secret now : Nat) : Handler :=
  authMiddleware
    (fun r db =>
      if headerGet r.headers "X-User-Type" ≠ "business_owner" then
        (⟨403, .err "business owner access required"⟩, db)
      else next r db)
    secret now

/-- `eventOwnerOnly` (handlers.go:151-161): `authMiddleware`, then 403 unless
the injected `X-User-Type` is `event_owner` or `business_owner`. -/
def eventOwnerOnly (next : Handler) (secret now : Nat) : Handler :=
  authMiddleware
    (fun r db =>
      if headerGet r.headers "X-User-Type" ≠ "event_owner" ∧
          headerGet r.headers "X-User-Type" ≠ "business_owner" then
        (⟨403, .err "event owner or business owner access required"⟩, db)
      else next r db)
    secret now

/-- `corsMiddleware` (handlers.go:551-568): answers OPTIONS preflight with
200, otherwise passes through (the request counter is observability only and
not modelled). -/
def corsMiddleware (next : Handler) : Handler :=
  fun r db =>
    if r.method = "OPTIONS" then (⟨200, .empty⟩, db)
    else next r db

/-- `logoutHandler` (handlers.go:826-852): POST only; 400 on a missing or
non-`Bearer` header; `DELETE FROM sessions WHERE token = ?` (500 on a
database error, success regardless of how many rows matched). -/
def logoutHandler : Handler :=
  fun r db =>
    if r.method ≠ "POST" then (⟨405, .empty⟩, db)
    else
      match r.auth with
      | .missing => (⟨400, .err "authorization header required"⟩, db)
      | .malformed _ => (⟨400, .err "authorization header required"⟩, db)
      | .bearer t =>
        if db.deleteFails then (⟨500, .err "failed to logout"⟩, db)
        else
          (⟨200, .msg "logged out successfully"⟩,
            { db with sessions := db.sessions.filter (fun s => s.token ≠ t) })

/-- The `/logout` route as registered in `NewRouter` (handlers.go:576):
`corsMiddleware(authMiddleware(logoutHandler))`. -/
def logoutRoute (secret now : Nat) : Handler :=
  corsMiddleware (authMiddleware logoutHandler secret now)

/-- The decoded body of a `/login` request. -/
structure LoginReq where
  email : String
  password : String
  deriving Repr, DecidableEq

/-- `loginHandler` (handlers.go:761-824). `checkHash` abstracts
`checkPasswordHash` (bcrypt compare), `signFails` the JWT signing fault. The
body is `none` when JSON decoding fails. An unknown email and a wrong
password both answer 401 `{"error": "invalid credentials"}`. -/
def loginHandler (checkHash : String → String → Bool) (signFails : Bool)
    (secret now : Nat) (body : Option LoginReq) : DB → Response × DB :=
  fun db =>
    match body with
    | none => (⟨400, .err "invalid request"⟩, db)
    | some req =>
      if req.email = "" ∨ req.password = "" then
        (⟨400, .err "email and password are required"⟩, db)
      else
        match db.users.find? (fun u => u.email == req.email) with
        | none => (⟨401, .err "invalid credentials"⟩, db)
        | some user =>
          if ¬ checkHash req.password user.password then
            (⟨401, .err "invalid credentials"⟩, db)
          else
            match generateToken signFails db secret user now with
            | .error _ => (⟨500, .err "failed to generate token"⟩, db)
            | .ok (tok, db') =>
              (⟨200, .loginOk { user with password := "" } tok⟩, db')

/-- The decoded body of a `/register` request. -/
structure RegisterReq where
  name : String
  email : String
  password : String
  type : String
  company : String
  phone : String
  deriving Repr, DecidableEq

/-- `registerHandler` (handlers.go:646-759). `hashFn`/`hashFails` abstract
`hashPassword` (bcrypt). The role defaults to `business_owner` when the
request's `type` is empty and is otherwise inserted unchanged; a duplicate
email answers 409. On success a profile row, the token and a 201 response
are produced. -/
def registerHandler (hashFn : String → String) (hashFails signFails : Bool)
    (secret now : Nat) (body : Option RegisterReq) : DB → Response × DB :=
  fun db =>
    match body with
    | none => (⟨400, .err "invalid request"⟩, db)
    | some req =>
      if req.name = "" ∨ req.email = "" ∨ req.password = "" then
        (⟨400, .err "name, email, and password are required"⟩, db)
      else if hashFails then
        (⟨500, .err "internal server error"⟩, db)
      else
        let hashedPassword := hashFn req.password
        let userType := if req.type = "" then "business_owner" else req.type
        if db.users.any (fun u => u.email == req.email) then
          (⟨409, .err "email already exists"⟩, db)
        else if db.insertFails then
          (⟨500, .err "failed to create user"⟩, db)
        else
          let userID := db.nextUserId
          let newUser : User := ⟨userID, req.name, req.email, hashedPassword, userType⟩
          let db1 : DB :=
            { db with users := db.users ++ [newUser], nextUserId := userID + 1 }
          let db2 : DB :=
            if userType = "business_owner" then
              { db1 with business_owners :=
                  db1.business_owners ++ [(userID, req.company, req.phone)] }
            else if userType = "event_owner" then
              { db1 with event_owners :=
                  db1.event_owners ++ [(userID, req.company, req.phone)] }
            else db1
          match db2.users.find? (fun u => u.id == userID) with
          | none => (⟨500, .err "user created but could not retrieve"⟩, db2)
          | some stored =>
            let fetched : User := { stored with password := "" }
            match generateToken signFails db2 secret fetched now with
            | .error _ => (⟨500, .err "failed to generate token"⟩, db2)
            | .ok (tok, db3) => (⟨201, .registerOk fetched tok⟩, db3)

/-! ### Concrete fixtures used by the witness theorems -/

def secret0 : Nat := 1

def now0 : Nat := 1000

def user0 : User := ⟨7, "Alice", "alice@example.com", "digestA", "business_owner"⟩

def user1 : User := ⟨8, "Bob", "bob@example.com", "digestB", "event_owner"⟩

def user2 : User := ⟨9, "Carol", "carol@example.com", "digestC", "user"⟩

def claims0 : Claims := ⟨7, "alice@example.com", "business_owner", now0 + 24 * 3600⟩

def claims1 : Claims := ⟨8, "bob@example.com", "event_owner", now0 + 24 * 3600⟩

def claims2 : Claims := ⟨9, "carol@example.com", "user", now0 + 24 * 3600⟩

def tok0 : Token := ⟨claims0, .HS256, secret0⟩

def tok1 : Token := ⟨claims1, .HS256, secret0⟩

def tok2 : Token := ⟨claims2, .HS256, secret0⟩

/-- A store with the three users and no sessions. -/
def db0 : DB := ⟨[user0, user1, user2], [], [], [], 10, false, false⟩

/-- A store in which all three tokens have live session rows. -/
def dbLive : DB :=
  ⟨[user0, user1, user2],
    [⟨7, tok0, now0 + 24 * 3600⟩, ⟨8, tok1, now0 + 24 * 3600⟩,
      ⟨9, tok2, now0 + 24 * 3600⟩],
    [], [], 10, false, false⟩

/-- `db0` after minting a token for `user0` at `now0`. -/
def dbAfterMint : DB := { db0 with sessions := [⟨7, tok0, now0 + 24 * 3600⟩] }

/-- A POST request presenting the given header, with no other headers. -/
def reqOf (a : AuthHeader) : Request := ⟨"POST", a, []⟩

/-- A downstream handler that plainly answers 200. -/
def nextOk : Handler := fun _ db => (⟨200, .empty⟩, db)

/-- A request that presents a valid token but also client-chosen
`X-User-ID` and `X-User-Type` headers. -/
def reqSpoofed : Request :=
  ⟨"GET", .bearer tok0, [("X-User-ID", "999"), ("X-User-Type", "admin")]⟩

/-- A register request that omits the role (empty `type`). -/
def reqRegEmptyType : RegisterReq :=
  ⟨"Dana", "dana@example.com", "pw123456", "", "Acme", "123"⟩

/-- A register request with a role outside the closed role set. -/
def reqRegWeirdType : RegisterReq :=
  ⟨"Evan", "evan@example.com", "pw123456", "superadmin", "Acme", "123"⟩

/-! ### Helper lemmas -/

/-- When no live session row matches the bearer token, `authenticateToken`
rejects before reaching signature verification. -/
theorem authTokenT_no_live_row (db : DB) (secret now : Nat) (t : Token)
    (h : ∀ s ∈ db.sessions, ¬(s.token = t ∧ now < s.expires_at)) :
    authenticateTokenT db secret now (.bearer t) =
      (.err "invalid or expired token", false) := by
  have hfind :
      db.sessions.find? (fun s => s.token == t && decide (now < s.expires_at))
        = none := by
    apply List.find?_eq_none.mpr
    intro s hs
    have hns := h s hs
    simp only [Bool.and_eq_true, beq_iff_eq, decide_eq_true_eq]
    tauto
  unfold authenticateTokenT
  simp [hfind]

/-- Characterization of a successful validation of a bearer token. -/
theorem authToken_ok_iff (db : DB) (secret now : Nat) (t : Token) (c : Claims) :
    authenticateToken db secret now (.bearer t) = .ok c ↔
      ((∃ s ∈ db.sessions, s.token = t ∧ now < s.expires_at) ∧
        t.alg = Alg.HS256 ∧ t.key = secret ∧ now < t.claims.exp ∧
        c = t.claims) := by
  unfold authenticateToken authenticateTokenT
  rcases hfind :
      db.sessions.find? (fun s => s.token == t && decide (now < s.expires_at))
    with _ | s
  · have hnone := List.find?_eq_none.mp hfind
    simp only [hfind]
    constructor
    · intro h
      simp at h
    · rintro ⟨⟨s, hs, h1, h2⟩, -⟩
      have hps := hnone s hs
      simp [h1, h2] at hps
  · have hs := List.mem_of_find?_eq_some hfind
    have hp := List.find?_some hfind
    simp only [Bool.and_eq_true, beq_iff_eq, decide_eq_true_eq] at hp
    simp only [hfind]
    split_ifs with h1 h2 h3
    · simp [h1]
    · simp [h2]
    · simp [Nat.not_lt.mpr h3]
    · push_neg at h1 h2 h3
      simp only [h1, h2, h3, and_true, true_and]
      constructor
      · intro h
        simp only [AuthResult.ok.injEq] at h
        exact ⟨⟨s, hs, hp.1, hp.2⟩, h.symm⟩
      · rintro ⟨-, h⟩
        simp [h]

/-! ### Claims -/

/-- C2: when no session row with `expires_at > now` matches the presented
token (never issued, revoked by logout, or expired), `authenticateToken`
returns an authentication error and signature verification is never reached —
in particular the token is rejected even when its signature is intact, since
the token (and hence its algorithm, key and claims) is arbitrary here. -/
theorem C2_db_check_before_signature (db : DB) (secret now : Nat) (t : Token)
    (h : ∀ s ∈ db.sessions, ¬(s.token = t ∧ now < s.expires_at)) :
    authenticateToken db secret now (.bearer t)
        = .err "invalid or expired token" ∧
      (authenticateTokenT db secret now (.bearer t)).2 = false := by
  refine ⟨?_, ?_⟩ <;>
    simp [authenticateToken, authTokenT_no_live_row db secret now t h]

/-- Witness for C2 at a concrete input: `tok0` is correctly signed (HS256 with
the process secret) yet `db0` has no session row for it. -/
theorem C2_witness :
    (∀ s ∈ db0.sessions, ¬(s.token = tok0 ∧ now0 < s.expires_at)) ∧
      (authenticateToken db0 secret0 now0 (.bearer tok0)
          = .err "invalid or expired token" ∧
        (authenticateTokenT db0 secret0 now0 (.bearer tok0)).2 = false) :=
  ⟨by decide, C2_db_check_before_signature db0 secret0 now0 tok0 (by decide)⟩

/-- C4: `generateToken` returns a token to its caller iff both signing and the
session-row insert succeed; any returned token has its session row persisted
in the returned store, so a signed-but-unpersisted token never reaches the
client. -/
theorem C4_issue_coupled (signFails : Bool) (db : DB) (secret : Nat)
    (user : User) (now : Nat) :
    ((∃ p, generateToken signFails db secret user now = .ok p) ↔
      signFails = false ∧ db.insertFails = false) ∧
    (∀ tok db', generateToken signFails db secret user now = .ok (tok, db') →
      Session.mk user.id tok (now + 24 * 3600) ∈ db'.sessions) := by
  constructor
  · constructor
    · rintro ⟨p, hp⟩
      by_cases h1 : signFails <;> by_cases h2 : db.insertFails <;>
        simp [generateToken, h1, h2] at hp ⊢
    · rintro ⟨h1, h2⟩
      subst h1
      cases hgen : generateToken false db secret user now with
      | ok p => exact ⟨p, rfl⟩
      | error e => simp [generateToken, h2] at hgen
  · intro tok db' h
    by_cases h1 : signFails <;> by_cases h2 : db.insertFails <;>
      simp [generateToken, h1, h2] at h
    obtain ⟨ht, hd⟩ := h
    subst ht
    subst hd
    simp

/-- Witness for C4 at a concrete input. -/
theorem C4_witness :
    Session.mk user0.id tok0 (now0 + 24 * 3600) ∈ dbAfterMint.sessions :=
  (C4_issue_coupled false db0 secret0 user0 now0).2 tok0 dbAfterMint (by rfl)

/-- C6: every successfully issued token carries exactly the claims
`{user_id = user.id, email = user.email, role = user.type, exp = now + 24h}`,
is HS256-signed with the process secret, and the session row inserted for it
carries the same expiry as the token's `exp` claim. -/
theorem C6_token_shape (signFails : Bool) (db : DB) (secret : Nat)
    (user : User) (now : Nat) (tok : Token) (db' : DB)
    (h : generateToken signFails db secret user now = .ok (tok, db')) :
    tok.claims = ⟨user.id, user.email, user.type, now + 24 * 3600⟩ ∧
    tok.alg = Alg.HS256 ∧ tok.key = secret ∧
    db'.sessions = db.sessions ++ [⟨user.id, tok, tok.claims.exp⟩] := by
  by_cases h1 : signFails <;> by_cases h2 : db.insertFails <;>
    simp [generateToken, h1, h2] at h
  obtain ⟨ht, hd⟩ := h
  subst hd
  simp [← ht]

/-- Witness for C6 at a concrete input. -/
theorem C6_witness :
    tok0.claims = ⟨user0.id, user0.email, user0.type, now0 + 24 * 3600⟩ ∧
    tok0.alg = Alg.HS256 ∧ tok0.key = secret0 ∧
    dbAfterMint.sessions = db0.sessions ++ [⟨user0.id, tok0, tok0.claims.exp⟩] :=
  C6_token_shape false db0 secret0 user0 now0 tok0 dbAfterMint (by rfl)

/-- C8: minting a token for a user and immediately validating it succeeds and
returns claims whose `user_id` and role equal those of the user at mint
time. -/
theorem C8_roundtrip (db : DB) (secret : Nat) (user : User) (now : Nat)
    (tok : Token) (db' : DB)
    (h : generateToken false db secret user now = .ok (tok, db')) :
    authenticateToken db' secret now (.bearer tok) = .ok tok.claims ∧
    tok.claims.user_id = user.id ∧ tok.claims.type = user.type := by
  by_cases h2 : db.insertFails <;> simp [generateToken, h2] at h
  obtain ⟨ht, hd⟩ := h
  subst ht
  subst hd
  refine ⟨(authToken_ok_iff _ _ _ _ _).mpr
    ⟨⟨⟨user.id, _, now + 24 * 3600⟩, ?_, rfl, ?_⟩, rfl, rfl, ?_, rfl⟩, rfl, rfl⟩
  · simp
  · show now < now + 24 * 3600
    omega
  · show now < now + 24 * 3600
    omega

/-- Witness for C8 at a concrete input. -/
theorem C8_witness :
    authenticateToken dbAfterMint secret0 now0 (.bearer tok0) = .ok tok0.claims ∧
    tok0.claims.user_id = user0.id ∧ tok0.claims.type = user0.type :=
  C8_roundtrip db0 secret0 user0 now0 tok0 dbAfterMint (by rfl)

/-- After identity injection, `X-User-Type` reads back as the claims' role. -/
theorem headerGet_injectIdentity_type (r : Request) (c : Claims) :
    headerGet (injectIdentity r c).headers "X-User-Type" = c.type := by
  rfl

/-- After identity injection, `X-User-ID` reads back as the claims' id. -/
theorem headerGet_injectIdentity_id (r : Request) (c : Claims) :
    headerGet (injectIdentity r c).headers "X-User-ID" = toString c.user_id := by
  rfl

/-- C3: a request with a valid token whose role is not `business_owner`
receives 403 from a `businessOwnerOnly` route; an `eventOwnerOnly` route
passes the request on to its handler exactly when the role is `event_owner`
or `business_owner`, and answers 403 for every other role. -/
theorem C3_role_gates (next : Handler) (secret now : Nat) (r : Request)
    (db : DB) (c : Claims)
    (hauth : authenticateToken db secret now r.auth = .ok c) :
    (c.type ≠ "business_owner" →
      businessOwnerOnly next secret now r db
        = (⟨403, .err "business owner access required"⟩, db)) ∧
    (eventOwnerOnly next secret now r db =
      if c.type = "event_owner" ∨ c.type = "business_owner" then
        next (injectIdentity r c) db
      else (⟨403, .err "event owner or business owner access required"⟩, db)) := by
  constructor
  · intro hne
    simp [businessOwnerOnly, authMiddleware, hauth, headerGet_injectIdentity_type,
      hne]
  · simp only [eventOwnerOnly, authMiddleware, hauth,
      headerGet_injectIdentity_type]
    split_ifs with h1 h2 <;> first | rfl | tauto

/-- Witness for C3 at a concrete input: an event-owner token on both gates. -/
theorem C3_witness :
    claims1.type ≠ "business_owner" ∧
    (businessOwnerOnly nextOk secret0 now0 (reqOf (.bearer tok1)) dbLive
        = (⟨403, .err "business owner access required"⟩, dbLive)) ∧
    (eventOwnerOnly nextOk secret0 now0 (reqOf (.bearer tok1)) dbLive =
      if claims1.type = "event_owner" ∨ claims1.type = "business_owner" then
        nextOk (injectIdentity (reqOf (.bearer tok1)) claims1) dbLive
      else (⟨403, .err "event owner or business owner access required"⟩, dbLive)) := by
  have h := C3_role_gates nextOk secret0 now0 (reqOf (.bearer tok1)) dbLive
    claims1 (by decide)
  exact ⟨by decide, h.1 (by decide), h.2⟩

/-- C9: when the token validates, the downstream handler runs on a request
whose `X-User-ID` and `X-User-Type` headers are set from the verified claims,
whatever values the client supplied for those headers. -/
theorem C9_identity_injection (next : Handler) (secret now : Nat) (r : Request)
    (db : DB) (c : Claims)
    (hauth : authenticateToken db secret now r.auth = .ok c) :
    authMiddleware next secret now r db = next (injectIdentity r c) db ∧
    headerGet (injectIdentity r c).headers "X-User-ID" = toString c.user_id ∧
    headerGet (injectIdentity r c).headers "X-User-Type" = c.type := by
  refine ⟨?_, headerGet_injectIdentity_id r c, headerGet_injectIdentity_type r c⟩
  simp [authMiddleware, hauth]

/-- Witness for C9 at a concrete input: the client sent `X-User-ID: 999` and
`X-User-Type: admin`, yet the handler observes the claims' values. -/
theorem C9_witness :
    authMiddleware nextOk secret0 now0 reqSpoofed dbLive
        = nextOk (injectIdentity reqSpoofed claims0) dbLive ∧
    headerGet (injectIdentity reqSpoofed claims0).headers "X-User-ID"
        = toString claims0.user_id ∧
    headerGet (injectIdentity reqSpoofed claims0).headers "X-User-Type"
        = claims0.type :=
  C9_identity_injection nextOk secret0 now0 reqSpoofed dbLive claims0 (by decide)

/-- C1: a successful POST /logout presenting token t answers 200; afterwards
validating t fails with an authentication error, while any other token that
validated before the logout still validates with the same claims. -/
theorem C1_logout_revokes_only_presented (secret now : Nat) (db : DB)
    (t t' : Token) (c c' : Claims) (r : Request)
    (hm : r.method = "POST") (ha : r.auth = .bearer t)
    (hdel : db.deleteFails = false)
    (h1 : authenticateToken db secret now (.bearer t) = .ok c)
    (h2 : authenticateToken db secret now (.bearer t') = .ok c')
    (hne : t' ≠ t) :
    ∃ db',
      logoutRoute secret now r db
          = (⟨200, .msg "logged out successfully"⟩, db') ∧
      authenticateToken db' secret now (.bearer t)
          = .err "invalid or expired token" ∧
      authenticateToken db' secret now (.bearer t') = .ok c' := by
  refine ⟨{ db with sessions := db.sessions.filter (fun s => s.token ≠ t) },
    ?_, ?_, ?_⟩
  · simp [logoutRoute, corsMiddleware, authMiddleware, logoutHandler, hm, ha,
      h1, injectIdentity, hdel]
  · have hall : ∀ s ∈ db.sessions.filter (fun s => s.token ≠ t),
        ¬(s.token = t ∧ now < s.expires_at) := by
      intro s hs
      have := (List.mem_filter.mp hs).2
      simp only [decide_eq_true_eq] at this
      tauto
    have hrej := authTokenT_no_live_row
      { db with sessions := db.sessions.filter (fun s => s.token ≠ t) }
      secret now t hall
    simp only [authenticateToken, hrej]
  · obtain ⟨⟨s, hs, hst, hlt⟩, halg, hkey, hexp, hc⟩ :=
      (authToken_ok_iff db secret now t' c').mp h2
    refine (authToken_ok_iff _ secret now t' c').mpr
      ⟨⟨s, ?_, hst, hlt⟩, halg, hkey, hexp, hc⟩
    simp only [DB.sessions]
    exact List.mem_filter.mpr ⟨hs, by simp [hst, hne]⟩

/-- Witness for C1 at a concrete input: two live sessions, logout of the
first. -/
theorem C1_witness :
    ∃ db',
      logoutRoute secret0 now0 (reqOf (.bearer tok0)) dbLive
          = (⟨200, .msg "logged out successfully"⟩, db') ∧
      authenticateToken db' secret0 now0 (.bearer tok0)
          = .err "invalid or expired token" ∧
      authenticateToken db' secret0 now0 (.bearer tok1) = .ok claims1 :=
  C1_logout_revokes_only_presented secret0 now0 dbLive tok0 tok1 claims0 claims1
    (reqOf (.bearer tok0)) (by rfl) (by rfl) (by rfl) (by decide) (by decide)
    (by decide)

/-- C5 counterexample: the claim fails on the code as composed in
`NewRouter`. With no session row for the presented token (already logged
out, expired, or never issued), the full POST /logout route answers 401 from
`authMiddleware`, not a success. -/
theorem C5_counterexample :
    (logoutRoute secret0 now0 (reqOf (.bearer tok0)) db0).1.status = 401 ∧
    (logoutRoute secret0 now0 (reqOf (.bearer tok0)) db0).1 ≠
      ⟨200, .msg "logged out successfully"⟩ := by
  decide

/-- C5 amended: `logoutHandler` itself treats a zero-row delete as success
(200, no loud error), but the registered /logout route wraps it in
`authMiddleware`, so a POST /logout presenting a token with no live session
row is rejected with 401 before the handler runs; a POST /logout presenting
a token with a live session row answers 200 and deletes that token's rows. -/
theorem C5_logout_route_behavior (secret now : Nat) (db : DB) (t : Token)
    (r : Request) (hm : r.method = "POST") (ha : r.auth = .bearer t)
    (hdel : db.deleteFails = false) :
    ((∀ s ∈ db.sessions, s.token ≠ t) →
      logoutHandler r db = (⟨200, .msg "logged out successfully"⟩, db)) ∧
    ((∀ s ∈ db.sessions, ¬(s.token = t ∧ now < s.expires_at)) →
      logoutRoute secret now r db = (⟨401, .err "unauthorized"⟩, db)) ∧
    (∀ c, authenticateToken db secret now (.bearer t) = .ok c →
      logoutRoute secret now r db
        = (⟨200, .msg "logged out successfully"⟩,
          { db with sessions := db.sessions.filter (fun s => s.token ≠ t) })) := by
  refine ⟨?_, ?_, ?_⟩
  · intro hnone
    have hfilter :
        db.sessions.filter (fun s => !decide (s.token = t)) = db.sessions := by
      apply List.filter_eq_self.mpr
      intro s hs
      simpa using hnone s hs
    simp [logoutHandler, hm, ha, hdel, hfilter]
    rw [← hdel]
  · intro hnorow
    have hrej := authTokenT_no_live_row db secret now t hnorow
    simp [logoutRoute, corsMiddleware, authMiddleware, authenticateToken, hm,
      ha, hrej]
  · intro c hc
    simp [logoutRoute, corsMiddleware, authMiddleware, logoutHandler, hm, ha,
      hc, injectIdentity, hdel]

/-- Witness for C5's amended statement at concrete inputs: on `db0` (row
already gone) the bare handler succeeds but the route answers 401. -/
theorem C5_witness :
    (logoutHandler (reqOf (.bearer tok0)) db0
        = (⟨200, .msg "logged out successfully"⟩, db0)) ∧
    (logoutRoute secret0 now0 (reqOf (.bearer tok0)) db0
        = (⟨401, .err "unauthorized"⟩, db0)) :=
  ⟨(C5_logout_route_behavior secret0 now0 db0 tok0 (reqOf (.bearer tok0))
      (by rfl) (by rfl) (by rfl)).1 (by decide),
   (C5_logout_route_behavior secret0 now0 db0 tok0 (reqOf (.bearer tok0))
      (by rfl) (by rfl) (by rfl)).2.1 (by decide)⟩

/-- C7: a login presenting an unknown email and a login presenting a known
email with a wrong password produce the same observable outcome — status 401,
body `{"error": "invalid credentials"}` — and leave the store unchanged, so a
client cannot distinguish the two runs. -/
theorem C7_no_user_enumeration (checkHash : String → String → Bool)
    (signFails : Bool) (secret now : Nat) (db : DB)
    (e1 p1 e2 p2 : String) (u : User)
    (he1 : e1 ≠ "") (hp1 : p1 ≠ "")
    (hu1 : ∀ v ∈ db.users, v.email ≠ e1)
    (he2 : e2 ≠ "") (hp2 : p2 ≠ "")
    (hu2 : db.users.find? (fun v => v.email == e2) = some u)
    (hpw : checkHash p2 u.password = false) :
    loginHandler checkHash signFails secret now (some ⟨e1, p1⟩) db
        = (⟨401, .err "invalid credentials"⟩, db) ∧
    loginHandler checkHash signFails secret now (some ⟨e2, p2⟩) db
        = (⟨401, .err "invalid credentials"⟩, db) := by
  constructor
  · have hfind : db.users.find? (fun v => v.email == e1) = none := by
      apply List.find?_eq_none.mpr
      intro v hv
      simpa using hu1 v hv
    simp [loginHandler, he1, hp1, hfind]
  · simp [loginHandler, he2, hp2, hu2, hpw]

/-- Witness for C7 at concrete inputs: `nobody@example.com` is unknown,
`alice@example.com` exists but the password comparison fails. -/
theorem C7_witness :
    loginHandler (fun _ _ => false) false secret0 now0
        (some ⟨"nobody@example.com", "guess"⟩) db0
        = (⟨401, .err "invalid credentials"⟩, db0) ∧
    loginHandler (fun _ _ => false) false secret0 now0
        (some ⟨"alice@example.com", "wrongpw"⟩) db0
        = (⟨401, .err "invalid credentials"⟩, db0) :=
  C7_no_user_enumeration (fun _ _ => false) false secret0 now0 db0
    "nobody@example.com" "guess" "alice@example.com" "wrongpw" user0
    (by decide) (by decide) (by decide) (by decide) (by decide) (by decide)
    (by rfl)

/-- `generateToken` only appends a session row: the users table is
unchanged. -/
theorem generateToken_users_eq (signFails : Bool) (db : DB) (secret : Nat)
    (u : User) (now : Nat) (tok : Token) (db' : DB)
    (h : generateToken signFails db secret u now = .ok (tok, db')) :
    db'.users = db.users := by
  by_cases h1 : signFails <;> by_cases h2 : db.insertFails <;>
    simp [generateToken, h1, h2] at h
  obtain ⟨-, hd⟩ := h
  subst hd
  rfl

/-- The users table of a conditional store is the conditional of the users
tables. -/
theorem users_ite (c : Prop) [Decidable c] (a b : DB) :
    (if c then a else b).users = if c then a.users else b.users := by
  split <;> rfl

/-- C10: a valid register request with empty `type` creates the user row with
role `business_owner`; any non-empty `type` string is inserted unchanged —
the handler never checks it against the closed role set. -/
theorem C10_register_type_defaulting (hashFn : String → String)
    (signFails : Bool) (secret now : Nat) (db : DB) (req : RegisterReq)
    (hn : req.name ≠ "") (he : req.email ≠ "") (hp : req.password ≠ "")
    (hdup : ∀ u ∈ db.users, u.email ≠ req.email)
    (hins : db.insertFails = false) :
    (registerHandler hashFn false signFails secret now (some req) db).2.users
      = db.users ++
        [⟨db.nextUserId, req.name, req.email, hashFn req.password,
          if req.type = "" then "business_owner" else req.type⟩] := by
  have hany : db.users.any (fun u => u.email == req.email) = false := by
    rw [List.any_eq_false]
    intro u hu
    simpa using hdup u hu
  simp only [registerHandler, hn, he, hp, hins, hany]
  simp only [Bool.false_eq_true, if_false, ite_false, or_self, if_neg,
    not_false_eq_true]
  split
  · simp only [users_ite, ite_self]
  · rename_i stored hfound
    split
    · rename_i e hg
      simp only [users_ite, ite_self]
    · rename_i tok db3 hg
      rw [generateToken_users_eq signFails _ secret _ now tok db3 hg]
      simp only [users_ite, ite_self]

/-- Witness for C10 at concrete inputs: an omitted role defaults to
`business_owner`; the role string `superadmin`, outside the closed role set,
is stored unchanged. -/
theorem C10_witness :
    (registerHandler (fun p => p) false false secret0 now0
        (some reqRegEmptyType) db0).2.users
      = db0.users ++
        [⟨db0.nextUserId, "Dana", "dana@example.com", "pw123456",
          "business_owner"⟩] ∧
    (registerHandler (fun p => p) false false secret0 now0
        (some reqRegWeirdType) db0).2.users
      = db0.users ++
        [⟨db0.nextUserId, "Evan", "evan@example.com", "pw123456",
          "superadmin"⟩] := by
  constructor
  · have h := C10_register_type_defaulting (fun p => p) false secret0 now0 db0
      reqRegEmptyType (by decide) (by decide) (by decide) (by decide) (by rfl)
    simpa [reqRegEmptyType] using h
  · have h := C10_register_type_defaulting (fun p => p) false secret0 now0 db0
      reqRegWeirdType (by decide) (by decide) (by decide) (by decide) (by rfl)
    simpa [reqRegWeirdType] using h
